import Mathlib

/-!
Shallow embedding of the gfycat client library (src/lib.rs, src/error.rs).

Modelling conventions:
* `std::time::Instant` is modelled as `Nat` (whole seconds); the platform's
  representable bound for `Instant::checked_add` is modelled by the constant
  `instantMax`.  The current instant `now` is passed explicitly.
* `reqwest::Client` carries no state relevant to the claims; it is `Unit`.
* JSON values are the inductive `Json`; JSON numbers are modelled as `Int`
  (numeric precision of `f64` fields is out of scope for all claims; integer
  fields check the `u32`/`u64` ranges as serde does).
* `reqwest::Error` is modelled by its two kinds relevant here: a transport
  failure and a body-decode failure (`reqwest`'s `Response::json` wraps serde
  failures into a decode-kind `reqwest::Error`).
* Each HTTP operation is split into the request it builds (`Request`) and the
  pure handler mapping the received response (`HttpResponse`) to the Rust
  function's result, exactly as the source's status `match` / decode chain does.
-/

namespace Gfycat

/-- JSON values as received on the wire. -/
inductive Json where
  | null : Json
  | bool (b : Bool) : Json
  | num (n : Int) : Json
  | str (s : String) : Json
  | arr (xs : List Json) : Json
  | obj (fields : List (String × Json)) : Json

/-- First-occurrence lookup of a key in a JSON object's field list. -/
def jlookup (k : String) : List (String × Json) → Option Json
  | [] => none
  | (k', v) :: rest => if k = k' then some v else jlookup k rest

/-- Model of `reqwest::Error` by the two kinds that arise in this library:
a transport/network failure, and a response-body decode failure
(`Response::json`). -/
inductive ReqwestError where
  | transport : ReqwestError
  | decode : ReqwestError
deriving DecidableEq

/-- `error::AuthError` from src/error.rs. -/
inductive AuthError where
  | Request (e : ReqwestError) : AuthError
  | SerdeJson : AuthError
  | IoError : AuthError
  | Expiration : AuthError
deriving DecidableEq

/-- `error::ApiError` from src/error.rs. -/
inductive ApiError where
  | Request (e : ReqwestError) : ApiError
  | SerdeJson : ApiError
  | IoError : ApiError
  | InvalidValue : ApiError
  | Unauthorized : ApiError
  | Unknown : ApiError
  | MissingEmail : ApiError
deriving DecidableEq

/-- `TokenType` from src/lib.rs: a single variant, deserialized from the
exact string `"bearer"` (serde rename). -/
inductive TokenType where
  | Bearer : TokenType
deriving DecidableEq

/-- `type ClientType = reqwest::Client`; carries no claim-relevant state. -/
def ClientType : Type := Unit

instance : DecidableEq ClientType := fun _ _ => isTrue rfl

/-- `struct TokenResponse` from src/lib.rs (`expires_in: u64` in seconds). -/
structure TokenResponse where
  token_type : TokenType
  expires_in : Nat
  access_token : String
deriving DecidableEq

/-- Modelled bound of the representable `Instant` range (platform-specific in
the source); instants are whole seconds. -/
def instantMax : Nat := 2 ^ 64 - 1

/-- Model of `Instant::checked_add`: `none` exactly when the sum leaves the
representable range. -/
def instantCheckedAdd (i d : Nat) : Option Nat :=
  if i + d ≤ instantMax then some (i + d) else none

/-- `struct Api` from src/lib.rs. -/
structure Api where
  token_type : TokenType
  expiration : Nat
  token : String
  client : ClientType
deriving DecidableEq

/-- `TokenResponse::to_api` from src/lib.rs: computes the expiration instant
with `checked_add` (failing with `AuthError::Expiration` on overflow) and
stores the token prefixed with `"Bearer "`. -/
def TokenResponse.to_api (tr : TokenResponse) (now : Nat) (client : ClientType) :
    Except AuthError Api :=
  match instantCheckedAdd now tr.expires_in with
  | some instant_expire =>
      .ok { token_type := tr.token_type
            expiration := instant_expire
            token := "Bearer " ++ tr.access_token
            client := client }
  | none => .error AuthError.Expiration

/-- `impl Default for Api` from src/lib.rs: empty token, expiration set to
`Instant::now()`. -/
def Api.default (now : Nat) : Api :=
  { token_type := TokenType.Bearer
    expiration := now
    token := ""
    client := () }

/-- `Api::need_reauthoirze` from src/lib.rs: returns `self.expiration >
Instant::now()` (sic). -/
def Api.need_reauthoirze (api : Api) (now : Nat) : Bool :=
  decide (now < api.expiration)

/-- serde: a required `String` field accepts exactly a JSON string. -/
def asStr : Json → Option String
  | .str s => some s
  | _ => none

/-- serde: a `bool` field accepts exactly a JSON boolean. -/
def asBool : Json → Option Bool
  | .bool b => some b
  | _ => none

/-- serde: a `u64` field accepts a JSON number in `[0, 2^64)`. -/
def asU64 : Json → Option Nat
  | .num n => if 0 ≤ n ∧ n < (2 : Int) ^ 64 then some n.toNat else none
  | _ => none

/-- serde: a `u32` field accepts a JSON number in `[0, 2^32)`. -/
def asU32 : Json → Option Nat
  | .num n => if 0 ≤ n ∧ n < (2 : Int) ^ 32 then some n.toNat else none
  | _ => none

/-- serde: an `f64` field accepts any JSON number (the numeric value is
modelled as `Int`; floating-point precision is out of scope). -/
def asF64 : Json → Option Int
  | .num n => some n
  | _ => none

/-- serde: a `Vec<String>` field accepts a JSON array of strings. -/
def asStrList : Json → Option (List String)
  | .arr xs => xs.mapM asStr
  | _ => none

/-- serde: a required struct field — look the key up and decode it; a missing
key is a deserialization failure. -/
def reqF (fs : List (String × Json)) (k : String) (dec : Json → Option α) :
    Option α :=
  (jlookup k fs).bind dec

/-- serde: an `Option<T>` struct field — a missing key or an explicit `null`
decodes to `none`; a present value must decode as `T`. -/
def optF (fs : List (String × Json)) (k : String) (dec : Json → Option α) :
    Option (Option α) :=
  match jlookup k fs with
  | none => some none
  | some Json.null => some none
  | some v => (dec v).map some

/-- serde deserializer for `TokenType`: only the string `"bearer"`. -/
def decodeTokenType : Json → Option TokenType
  | .str s => if s = "bearer" then some TokenType.Bearer else none
  | _ => none

/-- serde deserializer for `TokenResponse`. -/
def decodeTokenResponse (j : Json) : Option TokenResponse :=
  match j with
  | .obj fs =>
      match reqF fs "token_type" decodeTokenType, reqF fs "expires_in" asU64,
            reqF fs "access_token" asStr with
      | some token_type, some expires_in, some access_token =>
          some { token_type := token_type
                 expires_in := expires_in
                 access_token := access_token }
      | _, _, _ => none
  | _ => none

/-- `Api::new` from src/lib.rs, modelled from the authentication response body
onward: `Response::json::<TokenResponse>` (a serde failure surfaces as a
decode-kind `reqwest::Error`, hence `AuthError::Request`), then
`TokenResponse::to_api`. -/
def Api.new_handle (now : Nat) (body : Json) : Except AuthError Api :=
  match decodeTokenResponse body with
  | some tr => tr.to_api now ()
  | none => .error (AuthError.Request ReqwestError.decode)

/-- `const ENDPOINT` from src/lib.rs. -/
def ENDPOINT : String := "https://api.gfycat.com/v1/"

inductive Method where
  | GET : Method
  | POST : Method
  | PATCH : Method
deriving DecidableEq

/-- The HTTP request an operation builds before `send()`. -/
structure Request where
  method : Method
  url : String
  headers : List (String × String)
  body : Option Json

/-- The HTTP response an operation receives: numeric status plus JSON body. -/
structure HttpResponse where
  status : Nat
  body : Json

/-- Request built by `Api::user_exists`: GET, header `("Autorization",
self.token)` (sic), no body. -/
def user_exists_request (api : Api) (username : String) : Request :=
  { method := Method.GET
    url := ENDPOINT ++ "users/" ++ username
    headers := [("Autorization", api.token)]
    body := none }

/-- Status mapping in `Api::user_exists`. -/
def user_exists_handle (r : HttpResponse) : Except ApiError Bool :=
  match r.status with
  | 200 => .ok false
  | 404 => .ok true
  | 401 => .error ApiError.Unauthorized
  | 422 => .error ApiError.InvalidValue
  | _ => .error ApiError.Unknown

/-- Request built by `Api::email_verified`. -/
def email_verified_request (api : Api) : Request :=
  { method := Method.GET
    url := ENDPOINT ++ "me/email_verified"
    headers := [("Autorization", api.token)]
    body := none }

/-- Status mapping in `Api::email_verified`. -/
def email_verified_handle (r : HttpResponse) : Except ApiError Bool :=
  match r.status with
  | 404 => .ok false
  | 200 => .ok true
  | 401 => .error ApiError.Unauthorized
  | _ => .error ApiError.Unknown

/-- Request built by `Api::send_email_verification`. -/
def send_email_verification_request (api : Api) : Request :=
  { method := Method.POST
    url := ENDPOINT ++ "me/send_verification_email"
    headers := [("Autorization", api.token)]
    body := none }

/-- Status mapping in `Api::send_email_verification`: the source `match` has
arms `400 / 404 / 401 / _` and no arm returning `Ok(())`. -/
def send_email_verification_handle (r : HttpResponse) : Except ApiError Unit :=
  match r.status with
  | 400 => .error ApiError.Unknown
  | 404 => .error ApiError.MissingEmail
  | 401 => .error ApiError.Unauthorized
  | _ => .error ApiError.Unknown

/-- The JSON value `Api::reset_password` constructs with `serde_json::json!`
(the local variable `json` in the source). -/
def reset_password_json (email : String) : Json :=
  Json.obj [("value", Json.str email),
            ("action", Json.str "send_password_reset_email")]

/-- Request built by `Api::reset_password`: the source sends
`.patch(...).header(...).send()` without ever attaching the constructed
`json` value, so the request carries no body. -/
def reset_password_request (api : Api) (email : String) : Request :=
  { method := Method.PATCH
    url := ENDPOINT ++ "users/"
    headers := [("Autorization", api.token)]
    body := none }

/-- Status mapping in `Api::reset_password`. -/
def reset_password_handle (r : HttpResponse) : Except ApiError Unit :=
  match r.status with
  | 404 => .error ApiError.InvalidValue
  | 400 => .error ApiError.InvalidValue
  | 422 => .error ApiError.MissingEmail
  | _ => .error ApiError.Unknown

/-- `struct User` from src/lib.rs (all fields required on the wire). -/
structure User where
  userid : Nat
  username : String
  description : String
  profile_url : String
  name : String
  views : Nat
  email_verified : Bool
  url : String
  create_date : Nat
  profile_image_url : String
  verified : Bool
  followers : Nat
  following : Nat
deriving DecidableEq

/-- serde deserializer for `User`, honoring the rename attributes. -/
def decodeUser (j : Json) : Option User :=
  match j with
  | .obj fs =>
      match reqF fs "userid" asU64, reqF fs "username" asStr,
            reqF fs "description" asStr, reqF fs "profileUrl" asStr,
            reqF fs "name" asStr, reqF fs "views" asU64,
            reqF fs "email_verified" asBool, reqF fs "url" asStr,
            reqF fs "createDate" asU32, reqF fs "profileImageUrl" asStr,
            reqF fs "verified" asBool, reqF fs "followers" asU32,
            reqF fs "following" asU32 with
      | some userid, some username, some description, some profile_url,
        some name, some views, some email_verified, some url,
        some create_date, some profile_image_url, some verified,
        some followers, some following =>
          some { userid := userid, username := username
                 description := description
                 profile_url := profile_url, name := name, views := views
                 email_verified := email_verified, url := url
                 create_date := create_date
                 profile_image_url := profile_image_url
                 verified := verified, followers := followers
                 following := following }
      | _, _, _, _, _, _, _, _, _, _, _, _, _ => none
  | _ => none

/-- `struct SelfUser` from src/lib.rs (all fields required on the wire). -/
structure SelfUser where
  userid : Nat
  username : String
  description : String
  profile_url : String
  name : String
  views : Nat
  email_verified : Bool
  url : String
  create_date : Nat
  profile_image_url : String
  verified : Bool
  followers : Nat
  following : Nat
  geo_whitelist : String
  domain_whitelist : String
  associated_providers : String
  iframe_profile_Image_visible : String
deriving DecidableEq

/-- serde deserializer for `SelfUser`, honoring the rename attributes. -/
def decodeSelfUser (j : Json) : Option SelfUser :=
  match j with
  | .obj fs =>
      match reqF fs "userid" asU64, reqF fs "username" asStr,
            reqF fs "description" asStr, reqF fs "profileUrl" asStr,
            reqF fs "name" asStr, reqF fs "views" asU64,
            reqF fs "email_verified" asBool, reqF fs "url" asStr,
            reqF fs "createDate" asU32, reqF fs "profileImageUrl" asStr,
            reqF fs "verified" asBool, reqF fs "followers" asU32,
            reqF fs "following" asU32, reqF fs "geoWhitelist" asStr,
            reqF fs "domainWhitelist" asStr,
            reqF fs "associatedProviders" asStr,
            reqF fs "iframeProfileImageVisible" asStr with
      | some userid, some username, some description, some profile_url,
        some name, some views, some email_verified, some url,
        some create_date, some profile_image_url, some verified,
        some followers, some following, some geo_whitelist,
        some domain_whitelist, some associated_providers,
        some iframe_profile_Image_visible =>
          some { userid := userid, username := username
                 description := description
                 profile_url := profile_url, name := name, views := views
                 email_verified := email_verified, url := url
                 create_date := create_date
                 profile_image_url := profile_image_url
                 verified := verified, followers := followers
                 following := following, geo_whitelist := geo_whitelist
                 domain_whitelist := domain_whitelist
                 associated_providers := associated_providers
                 iframe_profile_Image_visible := iframe_profile_Image_visible }
      | _, _, _, _, _, _, _, _, _, _, _, _, _, _, _, _, _ => none
  | _ => none

/-- `struct GfyItem` from src/lib.rs: the six `Option` fields (`gif_size`,
`md5`, `language_categories`, `subreddit`, `reddit_id`, `reddit_id_text`) are
optional on the wire; everything else is required. -/
structure GfyItem where
  gfy_id : String
  gfy_name : String
  gfy_number : String
  webm_url : String
  gif_url : String
  mobile_url : String
  mobile_poster_url : String
  mini_url : String
  poster_url : String
  thumb_100_poster_url : String
  five_mb_gif : String
  two_mb_gif : String
  one_mb_gif : String
  _100px_gif : String
  width : Nat
  height : Nat
  avg_color : String
  fame_rate : Int
  num_frames : Int
  mp4_size : Nat
  webm_size : Nat
  gif_size : Option Nat
  source : Nat
  create_date : Nat
  nsfw : String
  mp4_url : String
  likes : String
  published : Nat
  dislikes : String
  extra_lemmas : String
  md5 : Option String
  views : Nat
  tags : List String
  username : String
  title : String
  description : String
  language_text : String
  language_categories : Option (List String)
  subreddit : Option String
  reddit_id : Option String
  reddit_id_text : Option String
  domain_whitelist : List String
deriving DecidableEq

/-- The 36 required fields of `GfyItem`, grouped so that the decoder can be
split into a required stage and an optional stage. -/
structure GfyRequired where
  gfy_id : String
  gfy_name : String
  gfy_number : String
  webm_url : String
  gif_url : String
  mobile_url : String
  mobile_poster_url : String
  mini_url : String
  poster_url : String
  thumb_100_poster_url : String
  five_mb_gif : String
  two_mb_gif : String
  one_mb_gif : String
  _100px_gif : String
  width : Nat
  height : Nat
  avg_color : String
  fame_rate : Int
  num_frames : Int
  mp4_size : Nat
  webm_size : Nat
  source : Nat
  create_date : Nat
  nsfw : String
  mp4_url : String
  likes : String
  published : Nat
  dislikes : String
  extra_lemmas : String
  views : Nat
  tags : List String
  username : String
  title : String
  description : String
  language_text : String
  domain_whitelist : List String
deriving DecidableEq

/-- The six `Option` fields of `GfyItem`. -/
structure GfyOptional where
  gif_size : Option Nat
  md5 : Option String
  language_categories : Option (List String)
  subreddit : Option String
  reddit_id : Option String
  reddit_id_text : Option String
deriving DecidableEq

/-- Decode the required fields of `GfyItem` (rename attributes from the
source). -/
def decodeGfyRequired (fs : List (String × Json)) : Option GfyRequired :=
  match reqF fs "gfyId" asStr, reqF fs "gfyName" asStr,
        reqF fs "gfyNumber" asStr, reqF fs "webmUrl" asStr,
        reqF fs "gifUrl" asStr, reqF fs "mobileUrl" asStr,
        reqF fs "mobilePosterUrl" asStr, reqF fs "miniUrl" asStr,
        reqF fs "posterUrl" asStr, reqF fs "thumb100PosterUrl" asStr,
        reqF fs "max5mbGif" asStr, reqF fs "max2mbGif" asStr,
        reqF fs "max1mbGif" asStr, reqF fs "gif100px" asStr,
        reqF fs "width" asU64, reqF fs "height" asU64,
        reqF fs "avgColor" asStr, reqF fs "frameRate" asF64,
        reqF fs "numFrames" asF64, reqF fs "mp4Size" asU32,
        reqF fs "webmSize" asU32, reqF fs "source" asU32,
        reqF fs "createDate" asU32, reqF fs "nsfw" asStr,
        reqF fs "mp4Url" asStr, reqF fs "likes" asStr,
        reqF fs "published" asU32, reqF fs "dislikes" asStr,
        reqF fs "extraLemmas" asStr, reqF fs "views" asU32,
        reqF fs "tags" asStrList, reqF fs "userName" asStr,
        reqF fs "title" asStr, reqF fs "description" asStr,
        reqF fs "languageText" asStr, reqF fs "domainWhitelist" asStrList with
  | some gfy_id, some gfy_name, some gfy_number, some webm_url, some gif_url,
    some mobile_url, some mobile_poster_url, some mini_url, some poster_url,
    some thumb_100_poster_url, some five_mb_gif, some two_mb_gif,
    some one_mb_gif, some hundred_px_gif, some width, some height,
    some avg_color, some fame_rate, some num_frames, some mp4_size,
    some webm_size, some source, some create_date, some nsfw, some mp4_url,
    some likes, some published, some dislikes, some extra_lemmas, some views,
    some tags, some username, some title, some description,
    some language_text, some domain_whitelist =>
      some { gfy_id := gfy_id, gfy_name := gfy_name, gfy_number := gfy_number
             webm_url := webm_url, gif_url := gif_url
             mobile_url := mobile_url
             mobile_poster_url := mobile_poster_url, mini_url := mini_url
             poster_url := poster_url
             thumb_100_poster_url := thumb_100_poster_url
             five_mb_gif := five_mb_gif, two_mb_gif := two_mb_gif
             one_mb_gif := one_mb_gif, _100px_gif := hundred_px_gif
             width := width, height := height, avg_color := avg_color
             fame_rate := fame_rate, num_frames := num_frames
             mp4_size := mp4_size, webm_size := webm_size, source := source
             create_date := create_date, nsfw := nsfw, mp4_url := mp4_url
             likes := likes, published := published, dislikes := dislikes
             extra_lemmas := extra_lemmas, views := views, tags := tags
             username := username, title := title, description := description
             language_text := language_text
             domain_whitelist := domain_whitelist }
  | _, _, _, _, _, _, _, _, _, _, _, _, _, _, _, _, _, _, _, _, _, _, _, _,
    _, _, _, _, _, _, _, _, _, _, _, _ => none

/-- Decode the six optional fields of `GfyItem` (rename attributes from the
source). -/
def decodeGfyOptional (fs : List (String × Json)) : Option GfyOptional :=
  match optF fs "gifSize" asU32, optF fs "md5" asStr,
        optF fs "languageCategories" asStrList, optF fs "subreddit" asStr,
        optF fs "redditId" asStr, optF fs "redditIdText" asStr with
  | some gif_size, some md5, some language_categories, some subreddit,
    some reddit_id, some reddit_id_text =>
      some { gif_size := gif_size, md5 := md5
             language_categories := language_categories
             subreddit := subreddit, reddit_id := reddit_id
             reddit_id_text := reddit_id_text }
  | _, _, _, _, _, _ => none

/-- Reassemble a `GfyItem` from its required and optional parts. -/
def mkGfyItem (req : GfyRequired) (opt : GfyOptional) : GfyItem :=
  { gfy_id := req.gfy_id, gfy_name := req.gfy_name
    gfy_number := req.gfy_number, webm_url := req.webm_url
    gif_url := req.gif_url, mobile_url := req.mobile_url
    mobile_poster_url := req.mobile_poster_url, mini_url := req.mini_url
    poster_url := req.poster_url
    thumb_100_poster_url := req.thumb_100_poster_url
    five_mb_gif := req.five_mb_gif, two_mb_gif := req.two_mb_gif
    one_mb_gif := req.one_mb_gif, _100px_gif := req._100px_gif
    width := req.width, height := req.height, avg_color := req.avg_color
    fame_rate := req.fame_rate, num_frames := req.num_frames
    mp4_size := req.mp4_size, webm_size := req.webm_size
    gif_size := opt.gif_size, source := req.source
    create_date := req.create_date, nsfw := req.nsfw, mp4_url := req.mp4_url
    likes := req.likes, published := req.published, dislikes := req.dislikes
    extra_lemmas := req.extra_lemmas, md5 := opt.md5, views := req.views
    tags := req.tags, username := req.username, title := req.title
    description := req.description, language_text := req.language_text
    language_categories := opt.language_categories
    subreddit := opt.subreddit, reddit_id := opt.reddit_id
    reddit_id_text := opt.reddit_id_text
    domain_whitelist := req.domain_whitelist }

/-- serde deserializer for `GfyItem`. -/
def decodeGfyItem (j : Json) : Option GfyItem :=
  match j with
  | .obj fs =>
      match decodeGfyRequired fs, decodeGfyOptional fs with
      | some req, some opt => some (mkGfyItem req opt)
      | _, _ => none
  | _ => none

/-- `struct GfycatInfo` from src/lib.rs: wrapper with the renamed required
field `gfyItem`. -/
structure GfycatInfo where
  gfy_item : GfyItem
deriving DecidableEq

/-- serde deserializer for `GfycatInfo`. -/
def decodeGfycatInfo (j : Json) : Option GfycatInfo :=
  match j with
  | .obj fs =>
      match reqF fs "gfyItem" decodeGfyItem with
      | some gfy_item => some { gfy_item := gfy_item }
      | none => none
  | _ => none

/-- Request built by `Api::user_details`. -/
def user_details_request (api : Api) (user_id : Nat) : Request :=
  { method := Method.GET
    url := ENDPOINT ++ "users/" ++ toString user_id
    headers := [("Autorization", api.token)]
    body := none }

/-- `Api::user_details` from the received response onward: the status is never
inspected; `Response::json::<User>` is applied directly, and a serde failure
surfaces as a decode-kind `reqwest::Error`, hence `ApiError::Request`. -/
def user_details_handle (r : HttpResponse) : Except ApiError User :=
  match decodeUser r.body with
  | some u => .ok u
  | none => .error (ApiError.Request ReqwestError.decode)

/-- Request built by `Api::self_details`. -/
def self_details_request (api : Api) : Request :=
  { method := Method.GET
    url := ENDPOINT ++ "me"
    headers := [("Autorization", api.token)]
    body := none }

/-- `Api::self_details` from the received response onward: same shape as
`user_details` — no status inspection, direct `json::<SelfUser>`. -/
def self_details_handle (r : HttpResponse) : Except ApiError SelfUser :=
  match decodeSelfUser r.body with
  | some u => .ok u
  | none => .error (ApiError.Request ReqwestError.decode)

/-- Request built by `Api::info`. -/
def info_request (api : Api) (gfy_id : String) : Request :=
  { method := Method.GET
    url := ENDPOINT ++ "gfycats/" ++ gfy_id
    headers := [("Autorization", api.token)]
    body := none }

/-- `Api::info` from the received response onward: no status inspection,
direct `json::<GfycatInfo>`, returning the inner `gfy_item`. -/
def info_handle (r : HttpResponse) : Except ApiError GfyItem :=
  match decodeGfycatInfo r.body with
  | some gi => .ok gi.gfy_item
  | none => .error (ApiError.Request ReqwestError.decode)

/-- The token-freshness predicate of the spec: the token is still valid
relative to `now` exactly when the expiration instant is strictly in the
future. -/
def tokenFresh (api : Api) (now : Nat) : Prop :=
  now < api.expiration

/-- The unimplemented methods of `impl Api` in src/lib.rs, one constructor
per stub. -/
inductive StubMethod where
  | reauthorize : StubMethod
  | update_details : StubMethod
  | profile_image : StubMethod
  | create_account : StubMethod
  | follow_user : StubMethod
  | unfollow_user : StubMethod
  | check_following : StubMethod
  | list_following : StubMethod
  | list_followers : StubMethod
  | published : StubMethod
  | private_feed : StubMethod
  | timeline : StubMethod
  | all_folders : StubMethod
  | bookmark_folders : StubMethod
  | bookmark_folders_id : StubMethod
  | self_albums : StubMethod
  | get_album_contents : StubMethod
  | albums_by_link : StubMethod
  | self_album_id : StubMethod
  | create_album : StubMethod
  | move_album_to_folder : StubMethod
deriving DecidableEq

/-- What calling a stub does: diverge with a panic (`unimplemented!`), or
return synchronously (with an error or a success). -/
inductive StubOutcome where
  | panics : StubOutcome
  | returnsApiError (e : ApiError) : StubOutcome
  | returnsAuthError (e : AuthError) : StubOutcome
  | returnsOk : StubOutcome
deriving DecidableEq

/-- Outcome of each stub method in src/lib.rs: every body is
`unimplemented! {}`, which panics. -/
def stubOutcome : StubMethod → StubOutcome
  | .reauthorize => StubOutcome.panics
  | .update_details => StubOutcome.panics
  | .profile_image => StubOutcome.panics
  | .create_account => StubOutcome.panics
  | .follow_user => StubOutcome.panics
  | .unfollow_user => StubOutcome.panics
  | .check_following => StubOutcome.panics
  | .list_following => StubOutcome.panics
  | .list_followers => StubOutcome.panics
  | .published => StubOutcome.panics
  | .private_feed => StubOutcome.panics
  | .timeline => StubOutcome.panics
  | .all_folders => StubOutcome.panics
  | .bookmark_folders => StubOutcome.panics
  | .bookmark_folders_id => StubOutcome.panics
  | .self_albums => StubOutcome.panics
  | .get_album_contents => StubOutcome.panics
  | .albums_by_link => StubOutcome.panics
  | .self_album_id => StubOutcome.panics
  | .create_album => StubOutcome.panics
  | .move_album_to_folder => StubOutcome.panics

/-- The token response of the spec's example scenario. -/
def trTok123 : TokenResponse :=
  { token_type := TokenType.Bearer, expires_in := 3600
    access_token := "tok123" }

/-- The `Api` produced by `to_api` from `trTok123` at instant 0. -/
def apiTok123 : Api :=
  { token_type := TokenType.Bearer, expiration := 3600
    token := "Bearer tok123", client := () }

/-- An `Api` whose token expires at instant 10. -/
def apiExp10 : Api :=
  { token_type := TokenType.Bearer, expiration := 10
    token := "Bearer t", client := () }

/-- A complete wire body for `User`. -/
def sampleUserFields : List (String × Json) :=
  [("userid", Json.num 42), ("username", Json.str "alice"),
   ("description", Json.str "d"), ("profileUrl", Json.str "p"),
   ("name", Json.str "Alice"), ("views", Json.num 7),
   ("email_verified", Json.bool true), ("url", Json.str "u"),
   ("createDate", Json.num 100), ("profileImageUrl", Json.str "img"),
   ("verified", Json.bool false), ("followers", Json.num 3),
   ("following", Json.num 4)]

/-- The `User` record `sampleUserFields` decodes to. -/
def sampleUser : User :=
  { userid := 42, username := "alice", description := "d"
    profile_url := "p", name := "Alice", views := 7
    email_verified := true, url := "u", create_date := 100
    profile_image_url := "img", verified := false
    followers := 3, following := 4 }

/-- A wire body for `GfyItem` carrying every required field and none of the
six optional ones. -/
def sampleGfyFields : List (String × Json) :=
  [("gfyId", Json.str "xyz"), ("gfyName", Json.str "Xyz"),
   ("gfyNumber", Json.str "1"), ("webmUrl", Json.str "w"),
   ("gifUrl", Json.str "g"), ("mobileUrl", Json.str "m"),
   ("mobilePosterUrl", Json.str "mp"), ("miniUrl", Json.str "mi"),
   ("posterUrl", Json.str "po"), ("thumb100PosterUrl", Json.str "th"),
   ("max5mbGif", Json.str "g5"), ("max2mbGif", Json.str "g2"),
   ("max1mbGif", Json.str "g1"), ("gif100px", Json.str "gp"),
   ("width", Json.num 1920), ("height", Json.num 1080),
   ("avgColor", Json.str "#252A28"), ("frameRate", Json.num 30),
   ("numFrames", Json.num 200), ("mp4Size", Json.num 500),
   ("webmSize", Json.num 300), ("source", Json.num 1),
   ("createDate", Json.num 1561075293), ("nsfw", Json.str "0"),
   ("mp4Url", Json.str "m4"), ("likes", Json.str "1"),
   ("published", Json.num 1), ("dislikes", Json.str "0"),
   ("extraLemmas", Json.str ""), ("views", Json.num 25705),
   ("tags", Json.arr [Json.str "timelapse"]),
   ("userName", Json.str "egster"), ("title", Json.str "NYC"),
   ("description", Json.str ""), ("languageText", Json.str ""),
   ("domainWhitelist", Json.arr [])]

/-- The `GfyItem` record `sampleGfyFields` decodes to: all six optional
fields are explicitly absent. -/
def sampleGfyItem : GfyItem :=
  { gfy_id := "xyz", gfy_name := "Xyz", gfy_number := "1"
    webm_url := "w", gif_url := "g", mobile_url := "m"
    mobile_poster_url := "mp", mini_url := "mi", poster_url := "po"
    thumb_100_poster_url := "th", five_mb_gif := "g5", two_mb_gif := "g2"
    one_mb_gif := "g1", _100px_gif := "gp", width := 1920, height := 1080
    avg_color := "#252A28", fame_rate := 30, num_frames := 200
    mp4_size := 500, webm_size := 300, gif_size := none, source := 1
    create_date := 1561075293, nsfw := "0", mp4_url := "m4", likes := "1"
    published := 1, dislikes := "0", extra_lemmas := "", md5 := none
    views := 25705, tags := ["timelapse"], username := "egster"
    title := "NYC", description := "", language_text := ""
    language_categories := none, subreddit := none, reddit_id := none
    reddit_id_text := none, domain_whitelist := [] }

/-- A token-endpoint response body whose `token_type` is not `"bearer"`. -/
def macTokenFields : List (String × Json) :=
  [("token_type", Json.str "mac"), ("expires_in", Json.num 3600),
   ("access_token", Json.str "tok123")]

/-- C1: after acquiring with access_token `"tok123"`, every implemented
operation attaches the header value `"Bearer tok123"` — but under the
misspelled header name `"Autorization"`, not the standard `"Authorization"`
the claim requires. -/
theorem auth_header_attached_misspelled :
    TokenResponse.to_api trTok123 0 () = .ok apiTok123 ∧
    apiTok123.token = "Bearer tok123" ∧
    (user_exists_request apiTok123 "@alice").headers
      = [("Autorization", "Bearer tok123")] ∧
    (email_verified_request apiTok123).headers
      = [("Autorization", "Bearer tok123")] ∧
    (send_email_verification_request apiTok123).headers
      = [("Autorization", "Bearer tok123")] ∧
    (reset_password_request apiTok123 "brooks@karlik.org").headers
      = [("Autorization", "Bearer tok123")] ∧
    (user_details_request apiTok123 7).headers
      = [("Autorization", "Bearer tok123")] ∧
    (self_details_request apiTok123).headers
      = [("Autorization", "Bearer tok123")] ∧
    (info_request apiTok123 "xyz").headers
      = [("Autorization", "Bearer tok123")] ∧
    ("Autorization" : String) ≠ "Authorization" := by
  refine ⟨rfl, rfl, rfl, rfl, rfl, rfl, rfl, rfl, rfl, by decide⟩

/-- C2 counterexample: a user-details response with non-2xx status 500 whose
body decodes as a `User` yields the decoded record, not the `Unknown`
error — the status is never inspected. -/
theorem user_details_non2xx_ok :
    user_details_handle { status := 500, body := Json.obj sampleUserFields }
      = .ok sampleUser := rfl

/-- C2 amended: the user-details, self-details and media-item-info operations
never inspect the status code: any response whose body decodes as the
resource yields the decoded record (for media-item info, the inner `gfyItem`
record), and a body that fails to decode yields a decode-kind `Request`
error, observably distinct from `Unknown` and from transport-kind `Request`
errors. -/
theorem details_info_ignore_status (r : HttpResponse) :
    (∀ u, decodeUser r.body = some u → user_details_handle r = .ok u) ∧
    (decodeUser r.body = none →
      user_details_handle r = .error (ApiError.Request ReqwestError.decode)) ∧
    (∀ su, decodeSelfUser r.body = some su →
      self_details_handle r = .ok su) ∧
    (decodeSelfUser r.body = none →
      self_details_handle r = .error (ApiError.Request ReqwestError.decode)) ∧
    (∀ gi, decodeGfycatInfo r.body = some gi →
      info_handle r = .ok gi.gfy_item) ∧
    (decodeGfycatInfo r.body = none →
      info_handle r = .error (ApiError.Request ReqwestError.decode)) ∧
    ApiError.Request ReqwestError.decode ≠ ApiError.Unknown ∧
    ApiError.Request ReqwestError.decode
      ≠ ApiError.Request ReqwestError.transport := by
  refine ⟨fun u hu => ?_, fun h => ?_, fun su hsu => ?_, fun h => ?_,
          fun gi hgi => ?_, fun h => ?_, by decide, by decide⟩
  · simp [user_details_handle, hu]
  · simp [user_details_handle, h]
  · simp [self_details_handle, hsu]
  · simp [self_details_handle, h]
  · simp [info_handle, hgi]
  · simp [info_handle, h]

/-- C2 witness: a concrete 404 response whose body is a complete `User`
object is decoded by user-details, while media-item info rejects the same
body with a decode-kind error. -/
theorem details_info_ignore_status_witness :
    user_details_handle { status := 404, body := Json.obj sampleUserFields }
      = .ok sampleUser ∧
    info_handle { status := 404, body := Json.obj sampleUserFields }
      = .error (ApiError.Request ReqwestError.decode) :=
  ⟨(details_info_ignore_status
      { status := 404, body := Json.obj sampleUserFields }).1 sampleUser rfl,
   (details_info_ignore_status
      { status := 404, body := Json.obj sampleUserFields }).2.2.2.2.2.1 rfl⟩

/-- C3: the send-verification-email status match has no success arm — a 2xx
response (status 200, 201 or 204) falls into the catch-all and yields
`Unknown` instead of unit success. -/
theorem send_email_verification_200_unknown :
    send_email_verification_handle { status := 200, body := Json.null }
      = .error ApiError.Unknown ∧
    send_email_verification_handle { status := 201, body := Json.null }
      = .error ApiError.Unknown ∧
    send_email_verification_handle { status := 204, body := Json.null }
      = .error ApiError.Unknown := ⟨rfl, rfl, rfl⟩

/-- C4: the reset-password operation constructs the JSON object
`(value, action)` but sends the PATCH request without any body — the
constructed value is dropped. -/
theorem reset_password_body_dropped :
    (reset_password_request apiTok123 "brooks@karlik.org").body = none ∧
    reset_password_json "brooks@karlik.org"
      = Json.obj [("value", Json.str "brooks@karlik.org"),
                  ("action", Json.str "send_password_reset_email")] :=
  ⟨rfl, rfl⟩

/-- C5 counterexample: `Api::default()` is a public construction path that
yields a Client whose token is the empty string and whose expiration equals
the construction instant, so its token is neither valid nor unexpired. -/
theorem default_api_breaks_invariant :
    (Api.default 7).token = "" ∧ ¬ tokenFresh (Api.default 7) 7 :=
  ⟨rfl, by simp [tokenFresh, Api.default]⟩

/-- C6: `need_reauthoirze` returns `expiration > now`; on a token whose
expiration (10) is strictly in the future of now (5) — a token that is still
valid — the predicate nevertheless reports that reauthorization is needed,
the opposite of the claimed polarity. -/
theorem need_reauthoirze_inverted :
    Api.need_reauthoirze apiExp10 5 = true ∧ 5 < apiExp10.expiration :=
  ⟨rfl, by decide⟩

/-- C7 counterexample: calling the `reauthorize` stub panics
(`unimplemented!`) instead of returning a distinct NotImplemented error
value. -/
theorem reauthorize_stub_panics :
    stubOutcome StubMethod.reauthorize = StubOutcome.panics := rfl

/-- C7 amended: every unimplemented operation in the catalogue diverges with
an `unimplemented!` panic — an undifferentiated runtime fault — rather than
returning any error value; no NotImplemented variant exists in the error
taxonomy. -/
theorem all_stubs_panic (m : StubMethod) :
    stubOutcome m = StubOutcome.panics := by
  cases m <;> rfl

/-- C5 amended: construction through token acquisition is atomic — whenever
`to_api` succeeds, the resulting Client's token is `"Bearer " ++
access_token` and its expiration is `now + expires_in`, so the freshness
predicate holds immediately after construction whenever `expires_in` is
positive. (The public `Api::default()` path, by contrast, yields a Client
with an empty token whose expiration equals the construction instant.) -/
theorem to_api_success_spec (now : Nat) (tr : TokenResponse)
    (client : ClientType) (api : Api) (h : tr.to_api now client = .ok api) :
    api.token = "Bearer " ++ tr.access_token ∧
    api.expiration = now + tr.expires_in ∧
    (0 < tr.expires_in → tokenFresh api now) := by
  unfold TokenResponse.to_api instantCheckedAdd at h
  by_cases hc : now + tr.expires_in ≤ instantMax
  · simp [hc] at h
    subst h
    refine ⟨rfl, rfl, fun hpos => ?_⟩
    simp only [tokenFresh]
    omega
  · simp [hc] at h

/-- C5 witness: acquiring with the example response (`expires_in` 3600,
access_token `"tok123"`) at instant 0 yields a Client whose token is
`"Bearer tok123"` and whose freshness predicate holds. -/
theorem to_api_success_spec_witness :
    apiTok123.token = "Bearer tok123" ∧ tokenFresh apiTok123 0 :=
  ⟨(to_api_success_spec 0 trTok123 () apiTok123 rfl).1,
   (to_api_success_spec 0 trTok123 () apiTok123 rfl).2.2 (by decide)⟩

/-- C8: acquisition computes `expires_at = now + expires_in`; when the sum
stays within the representable instant range the Client carries exactly that
expiration, and when it overflows the range `to_api` returns the
`Expiration` authentication error (the function is total, so it never
panics). -/
theorem to_api_expiration_bound (now : Nat) (tr : TokenResponse)
    (client : ClientType) :
    (now + tr.expires_in ≤ instantMax →
      tr.to_api now client = .ok
        { token_type := tr.token_type, expiration := now + tr.expires_in
          token := "Bearer " ++ tr.access_token, client := client }) ∧
    (instantMax < now + tr.expires_in →
      tr.to_api now client = .error AuthError.Expiration) := by
  constructor
  · intro h
    simp [TokenResponse.to_api, instantCheckedAdd, h]
  · intro h
    simp [TokenResponse.to_api, instantCheckedAdd, Nat.not_le.mpr h]

/-- C8 witness: at instant 5 the example response yields expiration 3605,
and an `expires_in` of `2^64 - 1` at instant 1 overflows the instant range
and yields the `Expiration` error. -/
theorem to_api_expiration_bound_witness :
    TokenResponse.to_api trTok123 5 () = .ok
      { token_type := TokenType.Bearer, expiration := 3605
        token := "Bearer tok123", client := () } ∧
    TokenResponse.to_api
      { token_type := TokenType.Bearer, expires_in := 2 ^ 64 - 1
        access_token := "t" } 1 () = .error AuthError.Expiration :=
  ⟨(to_api_expiration_bound 5 trTok123 ()).1 (by decide),
   (to_api_expiration_bound 1
      { token_type := TokenType.Bearer, expires_in := 2 ^ 64 - 1
        access_token := "t" } ()).2 (by decide)⟩

/-- C9: whenever a `GfyItem` body decodes successfully while one of the six
optional wire keys is absent from the object, the corresponding field of the
decoded record is the explicit absent marker `none`. -/
theorem gfyitem_optional_absent (fs : List (String × Json)) (item : GfyItem)
    (h : decodeGfyItem (Json.obj fs) = some item) :
    (jlookup "gifSize" fs = none → item.gif_size = none) ∧
    (jlookup "md5" fs = none → item.md5 = none) ∧
    (jlookup "languageCategories" fs = none →
      item.language_categories = none) ∧
    (jlookup "subreddit" fs = none → item.subreddit = none) ∧
    (jlookup "redditId" fs = none → item.reddit_id = none) ∧
    (jlookup "redditIdText" fs = none → item.reddit_id_text = none) := by
  cases hreq : decodeGfyRequired fs with
  | none => simp [decodeGfyItem, hreq] at h
  | some req =>
    cases hopt : decodeGfyOptional fs with
    | none => simp [decodeGfyItem, hreq, hopt] at h
    | some opt =>
      simp only [decodeGfyItem, hreq, hopt, Option.some.injEq] at h
      subst h
      cases h1 : optF fs "gifSize" asU32 with
      | none => simp [decodeGfyOptional, h1] at hopt
      | some gif_size =>
        cases h2 : optF fs "md5" asStr with
        | none => simp [decodeGfyOptional, h1, h2] at hopt
        | some md5 =>
          cases h3 : optF fs "languageCategories" asStrList with
          | none => simp [decodeGfyOptional, h1, h2, h3] at hopt
          | some language_categories =>
            cases h4 : optF fs "subreddit" asStr with
            | none => simp [decodeGfyOptional, h1, h2, h3, h4] at hopt
            | some subreddit =>
              cases h5 : optF fs "redditId" asStr with
              | none => simp [decodeGfyOptional, h1, h2, h3, h4, h5] at hopt
              | some reddit_id =>
                cases h6 : optF fs "redditIdText" asStr with
                | none =>
                    simp [decodeGfyOptional, h1, h2, h3, h4, h5, h6] at hopt
                | some reddit_id_text =>
                  simp only [decodeGfyOptional, h1, h2, h3, h4, h5, h6,
                    Option.some.injEq] at hopt
                  subst hopt
                  refine ⟨fun ha => ?_, fun ha => ?_, fun ha => ?_,
                          fun ha => ?_, fun ha => ?_, fun ha => ?_⟩
                  · simp [optF, ha] at h1; subst h1; simp [mkGfyItem]
                  · simp [optF, ha] at h2; subst h2; simp [mkGfyItem]
                  · simp [optF, ha] at h3; subst h3; simp [mkGfyItem]
                  · simp [optF, ha] at h4; subst h4; simp [mkGfyItem]
                  · simp [optF, ha] at h5; subst h5; simp [mkGfyItem]
                  · simp [optF, ha] at h6; subst h6; simp [mkGfyItem]

/-- C9 witness: a body carrying all 36 required fields and none of the six
optional keys decodes, and each optional field of the result is `none`. -/
theorem gfyitem_optional_absent_witness :
    decodeGfyItem (Json.obj sampleGfyFields) = some sampleGfyItem ∧
    sampleGfyItem.gif_size = none ∧ sampleGfyItem.md5 = none ∧
    sampleGfyItem.language_categories = none ∧
    sampleGfyItem.subreddit = none ∧ sampleGfyItem.reddit_id = none ∧
    sampleGfyItem.reddit_id_text = none :=
  have h : decodeGfyItem (Json.obj sampleGfyFields) = some sampleGfyItem := rfl
  have hthm := gfyitem_optional_absent sampleGfyFields sampleGfyItem h
  ⟨h, hthm.1 rfl, hthm.2.1 rfl, hthm.2.2.1 rfl, hthm.2.2.2.1 rfl,
   hthm.2.2.2.2.1 rfl, hthm.2.2.2.2.2 rfl⟩

/-- C10: token acquisition accepts only the exact string `"bearer"` as
`token_type` — for any other string the token response fails to decode and
`Api::new` returns the decode-kind `Request` authentication error, producing
no Client. -/
theorem token_type_only_bearer (now : Nat) (fs : List (String × Json))
    (s : String) (hlk : jlookup "token_type" fs = some (Json.str s))
    (hs : s ≠ "bearer") :
    decodeTokenResponse (Json.obj fs) = none ∧
    Api.new_handle now (Json.obj fs)
      = .error (AuthError.Request ReqwestError.decode) := by
  have htt : reqF fs "token_type" decodeTokenType = none := by
    simp [reqF, hlk, decodeTokenType, hs]
  have hdec : decodeTokenResponse (Json.obj fs) = none := by
    cases h2 : reqF fs "expires_in" asU64 <;>
      cases h3 : reqF fs "access_token" asStr <;>
        simp [decodeTokenResponse, htt, h2, h3]
  exact ⟨hdec, by simp [Api.new_handle, hdec]⟩

/-- C10 witness: a response whose `token_type` is `"mac"` fails to decode,
and acquisition returns the decode-kind `Request` error. -/
theorem token_type_only_bearer_witness :
    decodeTokenResponse (Json.obj macTokenFields) = none ∧
    Api.new_handle 0 (Json.obj macTokenFields)
      = .error (AuthError.Request ReqwestError.decode) :=
  ⟨(token_type_only_bearer 0 macTokenFields "mac" rfl (by decide)).1,
   (token_type_only_bearer 0 macTokenFields "mac" rfl (by decide)).2⟩

end Gfycat
